import Mathlib

/-!
Shallow embedding of `src/graph/weighted_graph.py`: a weighted directed
graph built through a fluent `WeightedGraphBuilder` and materialised as a
`WeightedGraph` of adjacency-list vertices.

Modelling conventions:
* Python `dict` is an insertion-ordered association list with unique keys:
  assigning to an existing key updates it in place, a new key is appended
  (`dictSet` / `dictGet?`).
* Edge weights are Python floats used only as opaque stored values (the code
  never computes with them), modelled as `Rat`.
* A method that may `raise` is modelled as returning the post-state of the
  mutated object paired with `Option PyError`: `(b, some e)` means the call
  raised `e` leaving the object in state `b`; `(b, none)` means it returned
  normally (the fluent methods return `self`, i.e. the first component).
* Vertex object references are modelled arena-style as indices into the
  graph's vertex list.
-/

/-- The Python exception kinds this module can raise. -/
inductive PyError where
  | typeError
  | valueError
  | keyError
  | indexError
deriving DecidableEq

/-- Python dict lookup on an insertion-ordered association list:
`d[k]` as an `Option`, i.e. `d.get(k)`. -/
def dictGet? [DecidableEq κ] (d : List (κ × ν)) (k : κ) : Option ν :=
  match d with
  | [] => none
  | p :: rest => if p.1 = k then some p.2 else dictGet? rest k

/-- Python dict assignment `d[k] = v`: an existing key keeps its position and
gets the new value, a fresh key is appended at the end (insertion order). -/
def dictSet [DecidableEq κ] (d : List (κ × ν)) (k : κ) (v : ν) : List (κ × ν) :=
  match d with
  | [] => [(k, v)]
  | p :: rest => if p.1 = k then (k, v) :: rest else p :: dictSet rest k v

/-- Assigning a key and reading it back yields the assigned value. -/
theorem dictGet?_dictSet_self [DecidableEq κ] (d : List (κ × ν)) (k : κ) (v : ν) :
    dictGet? (dictSet d k v) k = some v := by
  induction d with
  | nil => simp [dictSet, dictGet?]
  | cons p rest ih =>
    by_cases h : p.1 = k
    · simp [dictSet, dictGet?, h]
    · simp [dictSet, dictGet?, h, ih]

/-- Assigning a key leaves every other key's lookup unchanged. -/
theorem dictGet?_dictSet_ne [DecidableEq κ] (d : List (κ × ν)) (k k' : κ) (v : ν)
    (h : k' ≠ k) : dictGet? (dictSet d k v) k' = dictGet? d k' := by
  have h' : ¬(k = k') := fun hk => h hk.symm
  induction d with
  | nil => simp [dictSet, dictGet?, h']
  | cons p rest ih =>
    by_cases hp : p.1 = k
    · subst hp
      simp [dictSet, dictGet?, h']
    · by_cases hp' : p.1 = k'
      · simp [dictSet, dictGet?, hp, hp', h]
      · simp [dictSet, dictGet?, hp, hp', ih]

/-- Vertex of `weighted_graph.py` (`class Vertex`): parallel lists of outgoing
adjacencies and weights, both empty at construction.  Object references to
other vertices are represented arena-style as indices into the owning graph's
vertex list. -/
structure Vertex where
  adjacent_vertices : List Nat
  weights : List Rat
deriving DecidableEq

/-- Graph of `weighted_graph.py` (`class WeightedGraph`): the owned vertex
list plus the name-to-vertex mapping (vertex references as arena indices). -/
structure WeightedGraph where
  vertices : List Vertex
  name_to_vertex : List (String × Nat)
deriving DecidableEq

/-- Builder state of `WeightedGraph.WeightedGraphBuilder`: `vertices` is the
integer vertex count, `edges` maps an ordered index pair to the edge weight,
`name_to_vertex` maps a vertex name to its integer index. -/
structure WeightedGraphBuilder where
  vertices : Int
  edges : List ((Int × Int) × Rat)
  name_to_vertex : List (String × Int)
deriving DecidableEq

/-- `WeightedGraphBuilder.__init__`: zero vertices, empty dicts. -/
def WeightedGraphBuilder.empty : WeightedGraphBuilder :=
  { vertices := 0, edges := [], name_to_vertex := [] }

/-- `WeightedGraphBuilder.add_vertex(name=None)`: a missing name is
synthesised as `"vertex i"` from the current count, the name is mapped to the
current count, then the count is incremented.  Never raises. -/
def WeightedGraphBuilder.add_vertex (b : WeightedGraphBuilder)
    (name : Option String) : WeightedGraphBuilder :=
  let name :=
    match name with
    | none => "vertex " ++ toString b.vertices
    | some n => n
  { b with
    name_to_vertex := dictSet b.name_to_vertex name b.vertices
    vertices := b.vertices + 1 }

/-- `WeightedGraphBuilder.add_edge(src_v, dst_v, weight)`: raises
`ValueError` when an index is negative or at least the vertex count, leaving
the builder untouched; otherwise stores the weight under the ordered index
pair and returns `self`. -/
def WeightedGraphBuilder.add_edge (b : WeightedGraphBuilder)
    (src_v dst_v : Int) (weight : Rat) : WeightedGraphBuilder × Option PyError :=
  if src_v < 0 ∨ b.vertices ≤ src_v then (b, some PyError.valueError)
  else if dst_v < 0 ∨ b.vertices ≤ dst_v then (b, some PyError.valueError)
  else ({ b with edges := dictSet b.edges (src_v, dst_v) weight }, none)

/-- `WeightedGraphBuilder.add_edge_name(name1, name2, weight)`: raises
`KeyError` when either name is missing from `name_to_vertex`; otherwise
resolves both names to indices and delegates to `add_edge` (whose exception,
if any, propagates), then returns `self`. -/
def WeightedGraphBuilder.add_edge_name (b : WeightedGraphBuilder)
    (name1 name2 : String) (weight : Rat) :
    WeightedGraphBuilder × Option PyError :=
  match dictGet? b.name_to_vertex name1 with
  | none => (b, some PyError.keyError)
  | some src_v =>
    match dictGet? b.name_to_vertex name2 with
    | none => (b, some PyError.keyError)
    | some dst_v => b.add_edge src_v dst_v weight

/-- Python `for _ in x` where `x` is an `int`: an `int` is not iterable, so
the statement raises `TypeError` for every value of `x`.  `WeightedGraph.
__init__` runs `[Vertex() for _ in vertices]` with `vertices : int`. -/
def pyIterInt (_ : Int) : Except PyError (List Unit) :=
  Except.error PyError.typeError

/-- Python subscript `x[i]` where `x` is an `int`: an `int` is not
subscriptable, so the expression raises `TypeError` for every `x` and `i`
(hence the success type is empty).  The edge loop of `WeightedGraph.__init__`
runs `vertices[src_v]` on its `int` parameter instead of `self.vertices`. -/
def pySubscriptInt (_ : Int) (_ : Int) : Except PyError Empty :=
  Except.error PyError.typeError

/-- Python list subscript `xs[i]`: a negative index counts from the end,
anything out of range raises `IndexError`. -/
def pyListGet (xs : List α) (i : Int) : Except PyError α :=
  let j : Int := if i < 0 then i + xs.length else i
  if 0 ≤ j then
    match xs.get? j.toNat with
    | some v => Except.ok v
    | none => Except.error PyError.indexError
  else Except.error PyError.indexError

/-- Normalised Python list index (dead code on every run of `init`, kept to
mirror the source's name-to-vertex comprehension). -/
def pyNormIndex (n : Nat) (i : Int) : Nat :=
  if i < 0 then (i + n).toNat else i.toNat

/-- `WeightedGraph.__init__(vertices, edges, names_to_vertices)` exactly as
written.  Its first statement, `self.vertices = [Vertex() for _ in vertices]`,
iterates the `int` parameter `vertices` and therefore raises `TypeError`
unconditionally; the remaining statements (the name-to-vertex comprehension
and the edge loop, whose `vertices[src_v]` subscripts the same `int`
parameter) are modelled but unreachable, exactly as in the source. -/
def WeightedGraph.init (vertices : Int) (edges : List ((Int × Int) × Rat))
    (names_to_vertices : List (String × Int)) : Except PyError WeightedGraph := do
  let steps ← pyIterInt vertices
  let selfVertices : List Vertex :=
    steps.map fun _ => { adjacent_vertices := [], weights := [] }
  let namePairs ← names_to_vertices.mapM fun p => do
    let _vref ← pyListGet selfVertices p.2
    pure (p.1, pyNormIndex selfVertices.length p.2)
  let _ ← edges.mapM fun e => do
    let src ← pySubscriptInt vertices e.1.1
    (src.elim : Except PyError Unit)
  pure { vertices := selfVertices, name_to_vertex := namePairs }

/-- `WeightedGraphBuilder.build()`: hands the builder's count, edge dict and
name dict to the `WeightedGraph` constructor.  Nothing in the call mutates
the builder's attributes (the constructor only reads its arguments, and in
fact raises before touching them). -/
def WeightedGraphBuilder.build (b : WeightedGraphBuilder) :
    Except PyError WeightedGraph :=
  WeightedGraph.init b.vertices b.edges b.name_to_vertex

/-- `n` successive `add_vertex()` calls (no name argument) on a fresh
builder. -/
def addVertices : Nat → WeightedGraphBuilder
  | 0 => WeightedGraphBuilder.empty
  | n + 1 => (addVertices n).add_vertex none

/-- Two vertices named "Alice" and "Bob", the opening of the module
docstring's usage example. -/
def builderAliceBob : WeightedGraphBuilder :=
  (WeightedGraphBuilder.empty.add_vertex (some "Alice")).add_vertex (some "Bob")

/-- The name `add_vertex` registers: the supplied one, or `"vertex i"`
synthesised from the current vertex count when none is supplied. -/
def effectiveName (b : WeightedGraphBuilder) (name : Option String) : String :=
  name.getD ("vertex " ++ toString b.vertices)

/-- On an error return, `add_edge` has raised before its only assignment, so
the builder state it hands back is the input state. -/
theorem add_edge_err_state (b : WeightedGraphBuilder) (s d : Int) (w : Rat)
    (h : (b.add_edge s d w).2.isSome) : (b.add_edge s d w).1 = b := by
  by_cases h1 : s < 0 ∨ b.vertices ≤ s
  · simp [WeightedGraphBuilder.add_edge, h1]
  · by_cases h2 : d < 0 ∨ b.vertices ≤ d
    · simp [WeightedGraphBuilder.add_edge, h1, h2]
    · simp [WeightedGraphBuilder.add_edge, h1, h2] at h

/-- C1: the claim says every `build()` after `n` `add_vertex()` calls returns
a Graph with `n` vertices.  The builder does accumulate the count `n`, but
`WeightedGraph.__init__` iterates its integer `vertices` parameter
(`[Vertex() for _ in vertices]`), so every `build()` raises `TypeError` and
no Graph is ever returned. -/
theorem build_raises_after_n_vertices (n : Nat) :
    (addVertices n).vertices = (n : Int)
    ∧ (addVertices n).build = Except.error PyError.typeError := by
  constructor
  · induction n with
    | zero => rfl
    | succ m ih =>
      simp [addVertices, WeightedGraphBuilder.add_vertex, ih]
  · rfl

/-- C2: the claim says an edge added with `add_edge` shows up as an aligned
adjacency/weight entry of the built Graph.  The edge is recorded in the
builder (`add_edge` returns normally and the weight sits under the ordered
pair), but `build()` raises `TypeError` before wiring any adjacency, so no
Graph with that entry is ever produced. -/
theorem added_edge_never_reaches_graph :
    (builderAliceBob.add_edge 0 1 5).2 = none
    ∧ dictGet? (builderAliceBob.add_edge 0 1 5).1.edges (0, 1) = some 5
    ∧ (builderAliceBob.add_edge 0 1 5).1.build
        = Except.error PyError.typeError := by
  refine ⟨rfl, rfl, rfl⟩

/-- C3: `add_edge` raises `ValueError` exactly when an index is negative or
at least the current vertex count; otherwise it returns normally, records (or
overwrites) the weight under the ordered key, touches no other edge key and
no other builder attribute, and returns the builder.  (The first component of
the result is the state of `self`, the fluent return value.) -/
theorem add_edge_contract (b : WeightedGraphBuilder) (s d : Int) (w : Rat) :
    ((b.add_edge s d w).2 = some PyError.valueError ↔
      (s < 0 ∨ b.vertices ≤ s) ∨ (d < 0 ∨ b.vertices ≤ d))
    ∧ (0 ≤ s ∧ s < b.vertices ∧ 0 ≤ d ∧ d < b.vertices →
      (b.add_edge s d w).2 = none
      ∧ dictGet? (b.add_edge s d w).1.edges (s, d) = some w
      ∧ (∀ k, k ≠ (s, d) →
          dictGet? (b.add_edge s d w).1.edges k = dictGet? b.edges k)
      ∧ (b.add_edge s d w).1.vertices = b.vertices
      ∧ (b.add_edge s d w).1.name_to_vertex = b.name_to_vertex) := by
  by_cases h1 : s < 0 ∨ b.vertices ≤ s
  · constructor
    · simp [WeightedGraphBuilder.add_edge, h1]
    · intro hv
      omega
  · by_cases h2 : d < 0 ∨ b.vertices ≤ d
    · constructor
      · simp [WeightedGraphBuilder.add_edge, h1, h2]
      · intro hv
        omega
    · constructor
      · simp [WeightedGraphBuilder.add_edge, h1, h2]
      · intro _
        refine ⟨?_, ?_, ?_, ?_, ?_⟩
        · simp [WeightedGraphBuilder.add_edge, h1, h2]
        · simp [WeightedGraphBuilder.add_edge, h1, h2, dictGet?_dictSet_self]
        · intro k hk
          simp only [WeightedGraphBuilder.add_edge, if_neg h1, if_neg h2]
          exact dictGet?_dictSet_ne b.edges (s, d) k w hk
        · simp [WeightedGraphBuilder.add_edge, h1, h2]
        · simp [WeightedGraphBuilder.add_edge, h1, h2]

/-- Witness for C3 at a concrete input: on a two-vertex builder,
`add_edge(0, 1, 5)` returns normally, stores weight 5 under `(0, 1)`, leaves
key `(1, 0)` absent and the count and name map untouched. -/
theorem add_edge_contract_witness :
    (¬((builderAliceBob.add_edge 0 1 5).2 = some PyError.valueError)
      ∧ (builderAliceBob.add_edge 0 1 5).2 = none
      ∧ dictGet? (builderAliceBob.add_edge 0 1 5).1.edges (0, 1) = some 5
      ∧ dictGet? (builderAliceBob.add_edge 0 1 5).1.edges (1, 0)
          = dictGet? builderAliceBob.edges (1, 0)
      ∧ (builderAliceBob.add_edge 0 1 5).1.vertices = builderAliceBob.vertices
      ∧ (builderAliceBob.add_edge 0 1 5).1.name_to_vertex
          = builderAliceBob.name_to_vertex) := by
  have h := add_edge_contract builderAliceBob 0 1 5
  have hv : (0 : Int) ≤ 0 ∧ (0 : Int) < builderAliceBob.vertices
      ∧ (0 : Int) ≤ 1 ∧ (1 : Int) < builderAliceBob.vertices := by decide
  have hs := h.2 hv
  refine ⟨?_, hs.1, hs.2.1, hs.2.2.1 (1, 0) (by decide), hs.2.2.2.1, hs.2.2.2.2⟩
  intro hbad
  have := h.1.mp hbad
  revert this
  decide

/-- C4: `add_edge_name` raises `KeyError` exactly when a name is missing from
`name_to_vertex`; when a name is missing it leaves the builder untouched, and
when both resolve it behaves exactly as `add_edge` on the resolved indices
(whose `ValueError`, never a `KeyError`, would propagate). -/
theorem add_edge_name_contract (b : WeightedGraphBuilder) (n1 n2 : String)
    (w : Rat) :
    ((b.add_edge_name n1 n2 w).2 = some PyError.keyError ↔
      dictGet? b.name_to_vertex n1 = none ∨ dictGet? b.name_to_vertex n2 = none)
    ∧ ((dictGet? b.name_to_vertex n1 = none
        ∨ dictGet? b.name_to_vertex n2 = none) →
      b.add_edge_name n1 n2 w = (b, some PyError.keyError))
    ∧ (∀ i1 i2, dictGet? b.name_to_vertex n1 = some i1 →
      dictGet? b.name_to_vertex n2 = some i2 →
      b.add_edge_name n1 n2 w = b.add_edge i1 i2 w) := by
  rcases hl1 : dictGet? b.name_to_vertex n1 with _ | i1
  · refine ⟨by simp [WeightedGraphBuilder.add_edge_name, hl1], ?_, ?_⟩
    · intro _
      simp [WeightedGraphBuilder.add_edge_name, hl1]
    · intro i1 i2 hi1 _
      simp at hi1
  · rcases hl2 : dictGet? b.name_to_vertex n2 with _ | i2
    · refine ⟨by simp [WeightedGraphBuilder.add_edge_name, hl1, hl2], ?_, ?_⟩
      · intro _
        simp [WeightedGraphBuilder.add_edge_name, hl1, hl2]
      · intro j1 j2 _ hj2
        simp at hj2
    · refine ⟨?_, ?_, ?_⟩
      · simp only [WeightedGraphBuilder.add_edge_name, hl1, hl2]
        constructor
        · intro hke
          by_cases h1 : i1 < 0 ∨ b.vertices ≤ i1
          · simp [WeightedGraphBuilder.add_edge, h1] at hke
          · by_cases h2 : i2 < 0 ∨ b.vertices ≤ i2
            · simp [WeightedGraphBuilder.add_edge, h1, h2] at hke
            · simp [WeightedGraphBuilder.add_edge, h1, h2] at hke
        · intro hmiss
          rcases hmiss with hm | hm <;> simp at hm
      · intro hmiss
        rcases hmiss with hm | hm <;> simp at hm
      · intro j1 j2 hj1 hj2
        injection hj1 with h1j
        injection hj2 with h2j
        subst h1j
        subst h2j
        simp [WeightedGraphBuilder.add_edge_name, hl1, hl2]

/-- Witness for C4 at a concrete input: with "Alice" and "Bob" registered,
`add_edge_name("Alice", "Bob", 5)` behaves as `add_edge(0, 1, 5)`, and an
unregistered "Zed" makes the call raise `KeyError` leaving the builder as it
was. -/
theorem add_edge_name_contract_witness :
    builderAliceBob.add_edge_name "Alice" "Bob" 5 = builderAliceBob.add_edge 0 1 5
    ∧ builderAliceBob.add_edge_name "Zed" "Bob" 5
        = (builderAliceBob, some PyError.keyError) :=
  ⟨(add_edge_name_contract builderAliceBob "Alice" "Bob" 5).2.2 0 1
      (by decide) (by decide),
   (add_edge_name_contract builderAliceBob "Zed" "Bob" 5).2.1
      (Or.inl (by decide))⟩

/-- C5: two unnamed `add_vertex()` calls on a fresh builder synthesise the
names "vertex 0" then "vertex 1", and `name_to_vertex` maps them to indices
0 and 1 respectively. -/
theorem unnamed_vertices_synthesise_sequential_names :
    (addVertices 2).name_to_vertex = [("vertex 0", 0), ("vertex 1", 1)]
    ∧ dictGet? (addVertices 2).name_to_vertex "vertex 0" = some 0
    ∧ dictGet? (addVertices 2).name_to_vertex "vertex 1" = some 1 := by
  refine ⟨?_, ?_, ?_⟩ <;> rfl

/-- Number of entries of an association list carrying the given key. -/
def keyCount [DecidableEq κ] (d : List (κ × ν)) (k : κ) : Nat :=
  d.countP fun p => decide (p.1 = k)

/-- Dict assignment leaves exactly one entry for a key that occurred at most
once before (and creates it when absent). -/
theorem keyCount_dictSet (d : List (κ × ν)) (k : κ) (v : ν) [DecidableEq κ] :
    keyCount (dictSet d k v) k
      = if keyCount d k = 0 then 1 else keyCount d k := by
  induction d with
  | nil => simp [dictSet, keyCount]
  | cons p rest ih =>
    by_cases hp : p.1 = k
    · simp [dictSet, keyCount, hp, List.countP_cons]
    · have hc1 : keyCount (p :: rest) k = keyCount rest k := by
        simp [keyCount, List.countP_cons, hp]
      have hc2 : keyCount (p :: dictSet rest k v) k
          = keyCount (dictSet rest k v) k := by
        simp [keyCount, List.countP_cons, hp]
      simp only [dictSet, if_neg hp]
      rw [hc2, hc1, ih]

/-- C6: re-adding the same ordered index pair overwrites the earlier weight
at the builder level — afterwards the edge dict answers the second weight and
carries exactly one entry for the pair, so no parallel edge can ever come of
it — while the built Graph of the claim never materialises because `build()`
raises `TypeError`. -/
theorem duplicate_edge_last_write_wins (b : WeightedGraphBuilder) (s d : Int)
    (w1 w2 : Rat) (hkey : keyCount b.edges (s, d) ≤ 1)
    (hs : 0 ≤ s ∧ s < b.vertices) (hd : 0 ≤ d ∧ d < b.vertices) :
    dictGet? ((b.add_edge s d w1).1.add_edge s d w2).1.edges (s, d) = some w2
    ∧ keyCount ((b.add_edge s d w1).1.add_edge s d w2).1.edges (s, d) = 1
    ∧ ((b.add_edge s d w1).1.add_edge s d w2).1.build
        = Except.error PyError.typeError := by
  have h1 : ¬(s < 0 ∨ b.vertices ≤ s) := by omega
  have h2 : ¬(d < 0 ∨ b.vertices ≤ d) := by omega
  have hfst : (b.add_edge s d w1).1
      = { b with edges := dictSet b.edges (s, d) w1 } := by
    simp [WeightedGraphBuilder.add_edge, h1, h2]
  refine ⟨?_, ?_, rfl⟩
  · rw [hfst]
    simp [WeightedGraphBuilder.add_edge, h1, h2, dictGet?_dictSet_self]
  · rw [hfst]
    simp only [WeightedGraphBuilder.add_edge, if_neg h1, if_neg h2]
    rw [keyCount_dictSet, keyCount_dictSet]
    by_cases h0 : keyCount b.edges (s, d) = 0
    · simp [h0]
    · simp [h0]
      omega

/-- Witness for C6 at a concrete input: on a fresh two-vertex builder,
adding (0, 1) with weight 5 and then 9 leaves lookup 9 and one entry for the
pair, and `build()` raises. -/
theorem duplicate_edge_last_write_wins_witness :
    dictGet? (((addVertices 2).add_edge 0 1 5).1.add_edge 0 1 9).1.edges (0, 1)
        = some 9
    ∧ keyCount (((addVertices 2).add_edge 0 1 5).1.add_edge 0 1 9).1.edges (0, 1)
        = 1
    ∧ (((addVertices 2).add_edge 0 1 5).1.add_edge 0 1 9).1.build
        = Except.error PyError.typeError :=
  duplicate_edge_last_write_wins (addVertices 2) 0 1 5 9
    (by decide) (by decide) (by decide)

/-- C7: the claim says `build()` leaves the builder untouched and that
repeated calls return structurally equal, independently owned Graphs.  No
call returns a Graph at all: `WeightedGraph.__init__` raises `TypeError` on
its first statement, here on a one-vertex builder. -/
theorem build_returns_no_graph :
    (WeightedGraphBuilder.empty.add_vertex (some "solo")).build
      = Except.error PyError.typeError := rfl

/-- C8: `add_vertex` under a name collision raises nothing (it is total): it
re-points the colliding name at the new index — the old count — and still
increments the count, so the previously mapped index is no longer reachable
through that name. -/
theorem vertex_name_collision_overwrites (b : WeightedGraphBuilder)
    (name : Option String) (j : Int)
    (hj : dictGet? b.name_to_vertex (effectiveName b name) = some j)
    (hjlt : j < b.vertices) :
    dictGet? (b.add_vertex name).name_to_vertex (effectiveName b name)
        = some b.vertices
    ∧ (b.add_vertex name).vertices = b.vertices + 1
    ∧ dictGet? (b.add_vertex name).name_to_vertex (effectiveName b name)
        ≠ some j := by
  have hkey : ∀ nm : Option String,
      (b.add_vertex nm).name_to_vertex
        = dictSet b.name_to_vertex (effectiveName b nm) b.vertices := by
    intro nm
    cases nm <;> rfl
  refine ⟨?_, rfl, ?_⟩
  · rw [hkey]
    exact dictGet?_dictSet_self b.name_to_vertex _ b.vertices
  · rw [hkey]
    rw [dictGet?_dictSet_self b.name_to_vertex _ b.vertices]
    intro hcontra
    injection hcontra with hji
    omega

/-- Witness for C8 at a concrete input: after an unnamed vertex ("vertex 0"
↦ 0), adding a vertex explicitly named "vertex 0" re-points the name to
index 1, makes the count 2, and orphans index 0 from that name. -/
theorem vertex_name_collision_overwrites_witness :
    dictGet? ((WeightedGraphBuilder.empty.add_vertex none).add_vertex
        (some "vertex 0")).name_to_vertex "vertex 0" = some 1
    ∧ ((WeightedGraphBuilder.empty.add_vertex none).add_vertex
        (some "vertex 0")).vertices = 2
    ∧ dictGet? ((WeightedGraphBuilder.empty.add_vertex none).add_vertex
        (some "vertex 0")).name_to_vertex "vertex 0" ≠ some 0 :=
  vertex_name_collision_overwrites (WeightedGraphBuilder.empty.add_vertex none)
    (some "vertex 0") 0 (by decide) (by decide)

/-- C9: the alignment `len(adjacent_vertices) == len(weights)` is the clear
intent — `Vertex` opens with two empty lists and the constructor's edge loop
appends to both in lockstep — but no Graph carrying it is ever returned:
`build()` raises `TypeError`, here on the spec's bidirectional two-vertex
example. -/
theorem no_graph_carries_the_alignment :
    (((addVertices 2).add_edge 0 1 5).1.add_edge 1 0 5).1.build
      = Except.error PyError.typeError := rfl

/-- C10: a failing `add_edge` (`ValueError`) or `add_edge_name` (`KeyError`,
or a propagated `ValueError`) raises before any assignment, so the builder it
leaves behind is exactly the input state — count, edge dict and name dict
untouched. -/
theorem failed_calls_leave_builder_unchanged (b : WeightedGraphBuilder)
    (s d : Int) (n1 n2 : String) (w w' : Rat) :
    ((b.add_edge s d w).2.isSome → (b.add_edge s d w).1 = b)
    ∧ ((b.add_edge_name n1 n2 w').2.isSome → (b.add_edge_name n1 n2 w').1 = b) := by
  refine ⟨add_edge_err_state b s d w, ?_⟩
  rcases hl1 : dictGet? b.name_to_vertex n1 with _ | i1
  · intro _
    simp [WeightedGraphBuilder.add_edge_name, hl1]
  · rcases hl2 : dictGet? b.name_to_vertex n2 with _ | i2
    · intro _
      simp [WeightedGraphBuilder.add_edge_name, hl1, hl2]
    · intro h
      have hdel : b.add_edge_name n1 n2 w' = b.add_edge i1 i2 w' := by
        simp [WeightedGraphBuilder.add_edge_name, hl1, hl2]
      rw [hdel] at h ⊢
      exact add_edge_err_state b i1 i2 w' h

/-- Witness for C10 at a concrete input: on the empty builder both
`add_edge(0, 0, 5)` and `add_edge_name("Alice", "Bob", 5)` fail and hand back
the empty builder unchanged. -/
theorem failed_calls_leave_builder_unchanged_witness :
    (WeightedGraphBuilder.empty.add_edge 0 0 5).1 = WeightedGraphBuilder.empty
    ∧ (WeightedGraphBuilder.empty.add_edge_name "Alice" "Bob" 5).1
        = WeightedGraphBuilder.empty :=
  ⟨(failed_calls_leave_builder_unchanged WeightedGraphBuilder.empty 0 0
      "Alice" "Bob" 5 5).1 (by decide),
   (failed_calls_leave_builder_unchanged WeightedGraphBuilder.empty 0 0
      "Alice" "Bob" 5 5).2 (by decide)⟩
